import Mathlib

/-!
Verification of the portfolio server (`src/app.js`): a shallow embedding of
the portfolio document data model, the Cloudinary asset helpers
(`extractPublicId`, `deleteCloudinaryAsset`) and the admin mutation routes,
together with proofs about the spec's claims.

Conventions of the embedding:
* JavaScript values that may be either a legacy number or a string
  (record `id` fields) are modelled by `JsVal`.
* `undefined`/absent string fields are modelled with `Option String`;
  the empty string and `none` are both falsy, matching JS truthiness.
* Each route handler is a pure function from the request data and the
  system state (in-memory held reference + persisted store copy) to a
  `HandlerResult` holding the new state, the trace of externally visible
  actions, and the HTTP response.  A `saveOk` flag models whether the
  `portfolioData.save()` call succeeds or throws.
* The trace records `assetDelete pid` whenever `deleteCloudinaryAsset` is
  invoked (the asset-lifecycle delete of §4.2 of the spec), and
  `cloudDestroy pid` only when that helper actually issues the underlying
  `cloudinary.uploader.destroy` API call (i.e. when the public id is truthy).
-/

set_option autoImplicit false

namespace PortfolioApp

/-- A JavaScript id value: either a string (current records) or a number
(legacy records created before string ids existed). -/
inductive JsVal where
  | str (s : String)
  | num (n : Int)
deriving DecidableEq

/-- Digits to the natural number they denote, most significant first. -/
def digitsToNat (l : List Char) : Nat :=
  l.foldl (fun a c => a * 10 + (c.toNat - '0'.toNat)) 0

/-- JavaScript `String.prototype.trim`, modelled at the character level:
drop leading and trailing whitespace. -/
def trimChars (l : List Char) : List Char :=
  ((l.dropWhile Char.isWhitespace).reverse.dropWhile Char.isWhitespace).reverse

/-- Model of JavaScript `ToNumber` on strings, restricted to the shapes that
occur as record identifiers in this app: whitespace is trimmed, the empty
string is `0`, an optionally negated run of decimal digits is that integer,
and anything else is `NaN` (`none`).  (Fractional, hex and exponent literals
never occur as ids in this app and are not modelled.) -/
def jsToNumber (s : String) : Option Int :=
  let l := trimChars s.toList
  if l = [] then some 0
  else if l.all Char.isDigit then some (digitsToNat l)
  else
    match l with
    | '-' :: rest =>
      if rest ≠ [] ∧ rest.all Char.isDigit then some (-(digitsToNat rest : Int)) else none
    | _ => none

/-- Model of JavaScript `parseInt` (radix 10) as used on path parameters:
trim, optional sign, then the longest leading run of decimal digits; `NaN`
(`none`) when that run is empty.  (The `0x` hex form never occurs here.) -/
def jsParseInt (s : String) : Option Int :=
  let l := trimChars s.toList
  match l with
  | '-' :: rest =>
    let d := rest.takeWhile Char.isDigit
    if d = [] then none else some (-(digitsToNat d : Int))
  | '+' :: rest =>
    let d := rest.takeWhile Char.isDigit
    if d = [] then none else some (digitsToNat d)
  | _ =>
    let d := l.takeWhile Char.isDigit
    if d = [] then none else some (digitsToNat d)

/-- JavaScript loose equality `param == v` between a request path parameter
(always a string) and a stored id value: string ids compare as strings,
numeric ids force `ToNumber` coercion of the parameter. -/
def looseEq (param : String) : JsVal → Bool
  | .str s => param = s
  | .num n => jsToNumber param = some n

/-- Loose equality against a possibly-absent id field (`undefined == s` is
false for every string `s`). -/
def looseEqOpt (param : String) : Option JsVal → Bool
  | none => false
  | some v => looseEq param v

/-- JavaScript strict equality `param === v` between a string path parameter
and a stored id value: never true for a numeric (legacy) id. -/
def strictEq (param : String) : JsVal → Bool
  | .str s => param = s
  | .num _ => false

/-! ### The portfolio document (Mongoose schema, `src/app.js` lines 43-53) -/

/-- A carousel slide. -/
structure Slide where
  title : String
  description : String
  link : String
  buttonText : String
  url : Option String
deriving DecidableEq

/-- The `about` object. -/
structure About where
  summary : String
  fullStory : String
  skills : List String
  photoUrl : Option String
deriving DecidableEq

/-- The `projectSummary` object. -/
structure ProjectSummary where
  title : String
  paragraph1 : String
  paragraph2 : String
  buttonLink : String
  image : Option String
deriving DecidableEq

/-- An `education` record; legacy records may lack the `id` field. -/
structure Education where
  id : Option JsVal
  title : String
  institution : String
  years : String
  imageUrl : Option String
deriving DecidableEq

/-- A `certificates` record. -/
structure Certificate where
  id : JsVal
  title : String
  issuer : String
  pdfUrl : Option String
deriving DecidableEq

/-- A `gallery` record. -/
structure GalleryPhoto where
  id : JsVal
  url : Option String
  caption : String
deriving DecidableEq

/-- A `projects` record. -/
structure Project where
  id : JsVal
  title : String
  description : String
  githubLink : String
  images : List String
deriving DecidableEq

/-- The `footerInfo` object (lazily created, hence optional on the doc). -/
structure FooterInfo where
  name : String
  line1 : String
  line2 : String
  githubLink : String
  emailLink : String
  phoneLink : String
  linkedinLink : String
deriving DecidableEq

/-- The whole singleton portfolio document. -/
structure Portfolio where
  carousel : List Slide
  about : About
  projectSummary : ProjectSummary
  education : List Education
  certificates : List Certificate
  gallery : List GalleryPhoto
  projects : List Project
  footerInfo : Option FooterInfo
deriving DecidableEq

/-! ### String scanning helpers for `extractPublicId` -/

/-- Index of the first occurrence of `pat` as a contiguous sublist
(JavaScript `String.indexOf` / the first position at which the regex can
match). -/
def indexOfSubstr (pat : List Char) : List Char → Option Nat
  | [] => if pat = [] then some 0 else none
  | c :: rest =>
    if pat.isPrefixOf (c :: rest) then some 0
    else (indexOfSubstr pat rest).map (· + 1)

/-- Index of the last `'.'` (JavaScript `lastIndexOf('.')`, `none` for -1). -/
def lastIndexOfDot : List Char → Option Nat
  | [] => none
  | c :: rest =>
    match lastIndexOfDot rest with
    | some i => some (i + 1)
    | none => if c = '.' then some 0 else none

/-- `substring(0, lastIndexOf('.'))`: the characters strictly before the last
dot; JavaScript clamps the `-1` of a missing dot to `0`, yielding `""`. -/
def takeToLastDot (l : List Char) : List Char :=
  match lastIndexOfDot l with
  | none => []
  | some i => l.take i

/-- The text begins with a `v<digits>/` version segment: exactly the shape
consumed by the optional `(?:v\d+\/)?` group of the regex
`\/upload\/(?:v\d+\/)?(.*)`. -/
def versionCond (l : List Char) : Prop :=
  l.head? = some 'v' ∧ l.tail.takeWhile Char.isDigit ≠ [] ∧
    (l.tail.dropWhile Char.isDigit).head? = some '/'

instance versionCondDec (l : List Char) : Decidable (versionCond l) := by
  unfold versionCond; infer_instance

/-- Skip the leading `v<digits>/` version segment when present, as the
optional group of the regex does; otherwise leave the text unchanged. -/
def skipVersionSeg (l : List Char) : List Char :=
  if versionCond l then (l.tail.dropWhile Char.isDigit).tail else l

/-- The literal `/upload/` marker of the Cloudinary URL shape. -/
def uploadMarker : List Char := "/upload/".toList

/-- The literal `cloudinary.com` host marker. -/
def cloudinaryMarker : List Char := "cloudinary.com".toList

/-- Core of `extractPublicId` on character lists (the input is known
non-empty at the call site).  Mirrors `src/app.js` lines 85-103: reject URLs
not containing `cloudinary.com`; find the first `/upload/`; optionally skip a
`v<digits>/` version segment; the remaining capture must be non-empty
(`match[1]` is falsy when empty); strip everything from the last dot on. -/
def extractPublicIdCore (l : List Char) : Option (List Char) :=
  if (indexOfSubstr cloudinaryMarker l).isSome = false then none
  else
    match indexOfSubstr uploadMarker l with
    | none => none
    | some i =>
      let captured := skipVersionSeg (l.drop (i + uploadMarker.length))
      if captured = [] then none
      else some (takeToLastDot captured)

/-- `extractPublicId` (`src/app.js` lines 85-103).  `none`/`""` inputs are
falsy and rejected up front. -/
def extractPublicId (fileUrl : Option String) : Option String :=
  match fileUrl with
  | none => none
  | some u =>
    if u.toList = [] then none
    else (extractPublicIdCore u.toList).map String.mk

/-- The `cloudinary.uploader.destroy` calls actually issued by
`deleteCloudinaryAsset` (`src/app.js` lines 66-80): none when the public id
is falsy (`null` or `""`); all failures of the call itself are caught and
logged, so the surrounding mutation never observes them. -/
def destroyCalls (publicId : Option String) : List String :=
  match publicId with
  | none => []
  | some pid => if pid = "" then [] else [pid]

/-! ### Handler semantics -/

/-- Externally visible actions of a request handler, in program order. -/
inductive Action where
  | assetDelete (publicId : Option String)
  | cloudDestroy (publicId : String)
  | applyChange
  | persist
  | reload
deriving DecidableEq

/-- The actions performed by one invocation of `deleteCloudinaryAsset`:
the lifecycle delete itself, plus the underlying store API call when the
public id is truthy. -/
def deleteAssetActions (publicId : Option String) : List Action :=
  Action.assetDelete publicId :: (destroyCalls publicId).map Action.cloudDestroy

/-- HTTP responses the embedded routes produce.  `unhandledError` stands for
an exception escaping a handler that has no try/catch around its
`save()` call. -/
inductive Response where
  | redirect (target : String)
  | serverError (body : String)
  | unhandledError
deriving DecidableEq

/-- The system state: the in-memory held reference `portfolioData` and the
persisted copy in the document store. -/
structure SysState where
  mem : Portfolio
  store : Portfolio
deriving DecidableEq

/-- Result of running one request handler. -/
structure HandlerResult where
  state : SysState
  trace : List Action
  response : Response
deriving DecidableEq

/-- Outcome of the multer/Cloudinary upload middleware for a route that
accepts a single file: the upload was rejected (`err`), no file was supplied
(`req.file` undefined), or a file was stored and `req.file.path` is its
Cloudinary URL. -/
inductive UploadOutcome where
  | failed
  | noFile
  | file (path : String)
deriving DecidableEq

/-- Model of `encodeURIComponent` restricted to the characters appearing in
this app's fixed error messages (letters, digits, spaces and periods): only
the space needs escaping. -/
def encodeURIComponent (s : String) : String :=
  String.join (s.toList.map fun c => if c = ' ' then "%20" else String.mk [c])

/-- The redirect target used on upload failure:
`'/admin?uploadError=' + encodeURIComponent(msg)`. -/
def uploadErrorRedirect (msg : String) : String :=
  "/admin?uploadError=" ++ encodeURIComponent msg

/-- JavaScript `Array.prototype.findIndex` (`none` for -1). -/
def findIndexJs {α : Type} (pred : α → Bool) : List α → Option Nat
  | [] => none
  | x :: xs => if pred x then some 0 else (findIndexJs pred xs).map (· + 1)

/-- Replace the first element satisfying `pred` (mutation through the
reference returned by JavaScript `Array.prototype.find`). -/
def modifyFirst {α : Type} (pred : α → Bool) (f : α → α) : List α → List α
  | [] => []
  | x :: xs => if pred x then f x :: xs else x :: modifyFirst pred f xs

/-- Replace the element at position `i` (in-place mutation of `l[i]`). -/
def modifyAt {α : Type} (l : List α) (i : Nat) (f : α → α) : List α :=
  match l, i with
  | [], _ => []
  | x :: xs, 0 => f x :: xs
  | x :: xs, n + 1 => x :: modifyAt xs n f

/-! ### Route handlers (`src/app.js`), each as a pure function.

Every handler takes a `saveOk` flag telling whether its
`portfolioData.save()` call succeeds; when it fails the handler either
propagates an unhandled error or (where the source has a try/catch)
answers with the catch branch's 500 response.  A successful `save()` makes
the store equal to the held reference; a reload makes the held reference a
fresh copy of the store. -/

/-- Body fields of `POST /admin/update-carousel/:index`. -/
structure CarouselBody where
  title : String
  description : String
  link : String
  buttonText : String
deriving DecidableEq

/-- `POST /admin/update-carousel/:index` (`src/app.js` lines 243-273). -/
def updateCarousel (saveOk : Bool) (indexParam : String) (upload : UploadOutcome)
    (body : CarouselBody) (st : SysState) : HandlerResult :=
  match upload with
  | .failed =>
    { state := st, trace := [],
      response := .redirect (uploadErrorRedirect "Carousel upload failed. Check server log.") }
  | u =>
    match jsParseInt indexParam with
    | none =>
      { state := st, trace := [], response := .redirect "/admin#carousel" }
    | some iv =>
      if 0 ≤ iv ∧ iv < (st.mem.carousel.length : Int) then
        let i : Nat := iv.toNat
        let oldUrl : Option String := ((st.mem.carousel[i]?).map Slide.url).join
        let destroyActs : List Action :=
          match u with
          | .file _ => deleteAssetActions (extractPublicId oldUrl)
          | _ => []
        let memWithUrl : Portfolio :=
          match u with
          | .file p =>
            { st.mem with carousel := modifyAt st.mem.carousel i (fun s => { s with url := some p }) }
          | _ => st.mem
        let mem1 : Portfolio :=
          { memWithUrl with carousel := modifyAt memWithUrl.carousel i (fun s =>
              { s with title := body.title, description := body.description,
                       link := body.link, buttonText := body.buttonText }) }
        if saveOk then
          { state := { mem := mem1, store := mem1 },
            trace := destroyActs ++ [.applyChange, .persist],
            response := .redirect "/admin#carousel" }
        else
          { state := { mem := mem1, store := st.store },
            trace := destroyActs ++ [.applyChange],
            response := .unhandledError }
      else
        { state := st, trace := [], response := .redirect "/admin#carousel" }

/-- Body fields of `POST /admin/update-text`. -/
structure TextBody where
  aboutSummary : String
  aboutFull : String
  aboutSkills : String
deriving DecidableEq

/-- `POST /admin/update-text` (`src/app.js` lines 636-646).  Note: the
source persists but never reloads the held reference on this route. -/
def updateText (saveOk : Bool) (body : TextBody) (st : SysState) : HandlerResult :=
  let skills1 : List String :=
    ((((body.aboutSkills.toList.splitOn '\n').map trimChars).filter
      (fun l => l.length > 0)).map String.mk)
  let about1 : About :=
    { st.mem.about with
      summary := body.aboutSummary, fullStory := body.aboutFull, skills := skills1 }
  let mem1 : Portfolio := { st.mem with about := about1 }
  if saveOk then
    { state := { mem := mem1, store := mem1 },
      trace := [.applyChange, .persist],
      response := .redirect "/admin#general" }
  else
    { state := { mem := mem1, store := st.store },
      trace := [.applyChange],
      response := .unhandledError }

/-- `POST /admin/upload-gallery` (`src/app.js` lines 429-466).  The push,
save and reload sit in a try/catch whose catch answers 500. -/
def uploadGallery (saveOk : Bool) (newId : String) (upload : UploadOutcome)
    (caption : String) (st : SysState) : HandlerResult :=
  match upload with
  | .failed =>
    { state := st, trace := [],
      response := .redirect (uploadErrorRedirect "Gallery photo upload failed. Check server log.") }
  | .noFile =>
    { state := st, trace := [], response := .redirect "/admin#gallery" }
  | .file p =>
    let mem1 : Portfolio :=
      { st.mem with gallery :=
          st.mem.gallery ++ [{ id := .str newId, url := some p, caption := caption }] }
    if saveOk then
      { state := { mem := mem1, store := mem1 },
        trace := [.applyChange, .persist, .reload],
        response := .redirect "/admin#gallery" }
    else
      { state := { mem := mem1, store := st.store },
        trace := [.applyChange],
        response := .serverError "Database save failed after successful file upload." }

/-- `POST /admin/update-gallery-photo/:id` (`src/app.js` lines 469-512).
Lookup is by loose equality; the Cloudinary delete of the old url, the url
assignment, the save and the reload sit in a try/catch answering 500. -/
def updateGalleryPhoto (saveOk : Bool) (photoId : String) (upload : UploadOutcome)
    (st : SysState) : HandlerResult :=
  match upload with
  | .failed =>
    { state := st, trace := [],
      response := .redirect (uploadErrorRedirect "Gallery photo replacement failed. Check server log.") }
  | .noFile =>
    { state := st, trace := [], response := .redirect "/admin#gallery" }
  | .file p =>
    match st.mem.gallery.find? (fun g => looseEq photoId g.id) with
    | none => { state := st, trace := [], response := .redirect "/admin#gallery" }
    | some photo =>
      let acts := deleteAssetActions (extractPublicId photo.url)
      let gallery1 :=
        modifyFirst (fun g => looseEq photoId g.id) (fun g => { g with url := some p })
          st.mem.gallery
      let mem1 : Portfolio := { st.mem with gallery := gallery1 }
      if saveOk then
        { state := { mem := mem1, store := mem1 },
          trace := acts ++ [.applyChange, .persist, .reload],
          response := .redirect "/admin#gallery" }
      else
        { state := { mem := mem1, store := st.store },
          trace := acts ++ [.applyChange],
          response := .serverError "Database save failed after successful file upload." }

/-- `POST /admin/update-gallery-caption/:id` (`src/app.js` lines 684-697).
Loose-equality lookup; no asset calls; save without reload. -/
def updateGalleryCaption (saveOk : Bool) (photoId : String) (caption : String)
    (st : SysState) : HandlerResult :=
  match st.mem.gallery.find? (fun g => looseEq photoId g.id) with
  | none => { state := st, trace := [], response := .redirect "/admin#gallery" }
  | some _ =>
    let gallery1 :=
      modifyFirst (fun g => looseEq photoId g.id) (fun g => { g with caption := caption })
        st.mem.gallery
    let mem1 : Portfolio := { st.mem with gallery := gallery1 }
    if saveOk then
      { state := { mem := mem1, store := mem1 },
        trace := [.applyChange, .persist],
        response := .redirect "/admin#gallery" }
    else
      { state := { mem := mem1, store := st.store },
        trace := [.applyChange],
        response := .unhandledError }

/-- `POST /admin/delete-gallery-photo/:id` (`src/app.js` lines 539-560).
`findIndex` with loose equality, Cloudinary delete of the record's url,
splice, save, reload; no try/catch. -/
def deleteGalleryPhoto (saveOk : Bool) (photoId : String) (st : SysState) : HandlerResult :=
  match findIndexJs (fun g => looseEq photoId g.id) st.mem.gallery with
  | none => { state := st, trace := [], response := .redirect "/admin#gallery" }
  | some i =>
    match st.mem.gallery[i]? with
    | none => { state := st, trace := [], response := .redirect "/admin#gallery" }
    | some photo =>
      let acts := deleteAssetActions (extractPublicId photo.url)
      let mem1 : Portfolio := { st.mem with gallery := st.mem.gallery.eraseIdx i }
      if saveOk then
        { state := { mem := mem1, store := mem1 },
          trace := acts ++ [.applyChange, .persist, .reload],
          response := .redirect "/admin#gallery" }
      else
        { state := { mem := mem1, store := st.store },
          trace := acts ++ [.applyChange],
          response := .unhandledError }

/-- `POST /admin/delete-certificate/:id` (`src/app.js` lines 515-536). -/
def deleteCertificate (saveOk : Bool) (certId : String) (st : SysState) : HandlerResult :=
  match findIndexJs (fun c => looseEq certId c.id) st.mem.certificates with
  | none => { state := st, trace := [], response := .redirect "/admin#certificates" }
  | some i =>
    match st.mem.certificates[i]? with
    | none => { state := st, trace := [], response := .redirect "/admin#certificates" }
    | some cert =>
      let acts := deleteAssetActions (extractPublicId cert.pdfUrl)
      let mem1 : Portfolio := { st.mem with certificates := st.mem.certificates.eraseIdx i }
      if saveOk then
        { state := { mem := mem1, store := mem1 },
          trace := acts ++ [.applyChange, .persist, .reload],
          response := .redirect "/admin#certificates" }
      else
        { state := { mem := mem1, store := st.store },
          trace := acts ++ [.applyChange],
          response := .unhandledError }

/-- `POST /admin/delete-education/:id` (`src/app.js` lines 595-631): first a
loose-equality `findIndex` on the `id` field; if that fails and
`parseInt(identifier)` is a number within the array bounds, that position is
used; otherwise no-op. -/
def deleteEducation (saveOk : Bool) (identifier : String) (st : SysState) : HandlerResult :=
  let byId := findIndexJs (fun e => looseEqOpt identifier e.id) st.mem.education
  let eduIndex : Option Nat :=
    match byId with
    | some i => some i
    | none =>
      match jsParseInt identifier with
      | some n =>
        if 0 ≤ n ∧ n < (st.mem.education.length : Int) then some n.toNat else none
      | none => none
  match eduIndex with
  | none => { state := st, trace := [], response := .redirect "/admin#general" }
  | some i =>
    match st.mem.education[i]? with
    | none => { state := st, trace := [], response := .redirect "/admin#general" }
    | some edu =>
      let acts := deleteAssetActions (extractPublicId edu.imageUrl)
      let mem1 : Portfolio := { st.mem with education := st.mem.education.eraseIdx i }
      if saveOk then
        { state := { mem := mem1, store := mem1 },
          trace := acts ++ [.applyChange, .persist, .reload],
          response := .redirect "/admin#general" }
      else
        { state := { mem := mem1, store := st.store },
          trace := acts ++ [.applyChange],
          response := .unhandledError }

/-- `POST /admin/delete-project-image/:id` (`src/app.js` lines 348-372).
Project lookup by strict equality; a missing project, a falsy `imageUrl`
body field or an absent url in `images` are all silent no-ops. -/
def deleteProjectImage (saveOk : Bool) (projectId : String) (imageUrl : String)
    (st : SysState) : HandlerResult :=
  match st.mem.projects.find? (fun p => strictEq projectId p.id) with
  | none => { state := st, trace := [], response := .redirect "/admin#projects" }
  | some project =>
    if imageUrl = "" then
      { state := st, trace := [], response := .redirect "/admin#projects" }
    else if project.images.contains imageUrl then
      let acts := deleteAssetActions (extractPublicId (some imageUrl))
      let projects1 :=
        modifyFirst (fun p => strictEq projectId p.id)
          (fun p => { p with images := p.images.erase imageUrl }) st.mem.projects
      let mem1 : Portfolio := { st.mem with projects := projects1 }
      if saveOk then
        { state := { mem := mem1, store := mem1 },
          trace := acts ++ [.applyChange, .persist, .reload],
          response := .redirect "/admin#projects" }
      else
        { state := { mem := mem1, store := st.store },
          trace := acts ++ [.applyChange],
          response := .unhandledError }
    else
      { state := st, trace := [], response := .redirect "/admin#projects" }

/-- `POST /admin/delete-project/:id` (`src/app.js` lines 376-397): strict
`findIndex`, a Cloudinary delete per image of the project, splice, save,
reload. -/
def deleteProject (saveOk : Bool) (projectId : String) (st : SysState) : HandlerResult :=
  match findIndexJs (fun p => strictEq projectId p.id) st.mem.projects with
  | none => { state := st, trace := [], response := .redirect "/admin#projects" }
  | some i =>
    match st.mem.projects[i]? with
    | none => { state := st, trace := [], response := .redirect "/admin#projects" }
    | some project =>
      let acts := (project.images.map (fun u => deleteAssetActions (extractPublicId (some u)))).flatten
      let mem1 : Portfolio := { st.mem with projects := st.mem.projects.eraseIdx i }
      if saveOk then
        { state := { mem := mem1, store := mem1 },
          trace := acts ++ [.applyChange, .persist, .reload],
          response := .redirect "/admin#projects" }
      else
        { state := { mem := mem1, store := st.store },
          trace := acts ++ [.applyChange],
          response := .unhandledError }

/-- `POST /admin/update-project/:id` (`src/app.js` lines 667-681): strict
lookup, text-only update, save without reload. -/
def updateProject (saveOk : Bool) (projectId : String)
    (title description githubLink : String) (st : SysState) : HandlerResult :=
  match st.mem.projects.find? (fun p => strictEq projectId p.id) with
  | none => { state := st, trace := [], response := .redirect "/admin#projects" }
  | some _ =>
    let projects1 :=
      modifyFirst (fun p => strictEq projectId p.id)
        (fun p => { p with title := title, description := description,
                           githubLink := githubLink }) st.mem.projects
    let mem1 : Portfolio := { st.mem with projects := projects1 }
    if saveOk then
      { state := { mem := mem1, store := mem1 },
        trace := [.applyChange, .persist],
        response := .redirect "/admin#projects" }
    else
      { state := { mem := mem1, store := st.store },
        trace := [.applyChange],
        response := .unhandledError }

/-- `POST /admin/upload-project-image/:id` (`src/app.js` lines 326-345):
strict lookup; push of the new Cloudinary URL; save without reload. -/
def uploadProjectImage (saveOk : Bool) (projectId : String) (upload : UploadOutcome)
    (st : SysState) : HandlerResult :=
  match upload with
  | .failed =>
    { state := st, trace := [],
      response := .redirect (uploadErrorRedirect "Project image upload failed. Check server log.") }
  | .noFile =>
    { state := st, trace := [], response := .redirect "/admin#projects" }
  | .file p =>
    match st.mem.projects.find? (fun pr => strictEq projectId pr.id) with
    | none => { state := st, trace := [], response := .redirect "/admin#projects" }
    | some _ =>
      let projects1 :=
        modifyFirst (fun pr => strictEq projectId pr.id)
          (fun pr => { pr with images := pr.images ++ [p] }) st.mem.projects
      let mem1 : Portfolio := { st.mem with projects := projects1 }
      if saveOk then
        { state := { mem := mem1, store := mem1 },
          trace := [.applyChange, .persist],
          response := .redirect "/admin#projects" }
      else
        { state := { mem := mem1, store := st.store },
          trace := [.applyChange],
          response := .unhandledError }

/-- Body fields of `POST /admin/update-footer`. -/
structure FooterBody where
  name : String
  line1 : String
  line2 : String
  githubLink : String
  emailLink : String
  phoneLink : String
  linkedinLink : String
deriving DecidableEq

/-- `POST /admin/update-footer` (`src/app.js` lines 700-725): lazily creates
`footerInfo` when absent, assigns all seven body fields, saves without
reload.  The whole body sits in a try/catch whose catch block answers the
ordinary success redirect `/admin#general`, so a failing save is swallowed
and the response is indistinguishable from success. -/
def updateFooter (saveOk : Bool) (body : FooterBody) (st : SysState) : HandlerResult :=
  let fi : FooterInfo :=
    { name := body.name, line1 := body.line1, line2 := body.line2,
      githubLink := body.githubLink, emailLink := body.emailLink,
      phoneLink := body.phoneLink, linkedinLink := body.linkedinLink }
  let mem1 : Portfolio := { st.mem with footerInfo := some fi }
  if saveOk then
    { state := { mem := mem1, store := mem1 },
      trace := [.applyChange, .persist],
      response := .redirect "/admin#general" }
  else
    { state := { mem := mem1, store := st.store },
      trace := [.applyChange],
      response := .redirect "/admin#general" }

/-! ### Concrete example data used by witnesses and counterexamples -/

/-- An example `about` object. -/
def egAbout : About :=
  { summary := "s", fullStory := "f", skills := ["x"], photoUrl := none }

/-- An example `projectSummary` object. -/
def egSummary : ProjectSummary :=
  { title := "t", paragraph1 := "p1", paragraph2 := "p2", buttonLink := "b", image := none }

/-- An example carousel slide holding a Cloudinary asset. -/
def egSlide : Slide :=
  { title := "t", description := "d", link := "l", buttonText := "b",
    url := some "https://res.cloudinary.com/demo/image/upload/v1/portfolio/Carousel/slide.png" }

/-- A base document with all collections empty. -/
def egBase : Portfolio :=
  { carousel := [], about := egAbout, projectSummary := egSummary, education := [],
    certificates := [], gallery := [], projects := [], footerInfo := none }

/-- The state whose held reference and store copy are both `d`. -/
def egSt (d : Portfolio) : SysState := { mem := d, store := d }

/-- A document with one gallery photo whose url is not a Cloudinary URL. -/
def egGalleryDoc : Portfolio :=
  { egBase with gallery := [{ id := .str "g1", url := some "U", caption := "c" }] }

/-- A document matching the C9 scenario. -/
def egCaptionDoc : Portfolio :=
  { egBase with gallery := [{ id := .str "g1", url := some "U1", caption := "old" }] }

/-- A document with two gallery photos sharing the same asset url. -/
def egDupDoc : Portfolio :=
  { egBase with gallery :=
      [{ id := .str "g1", url := some "U", caption := "c1" },
       { id := .str "g2", url := some "U", caption := "c2" }] }

/-- A document matching the C5 scenario. -/
def egProjDoc : Portfolio :=
  { egBase with projects :=
      [{ id := .str "proj1", title := "t", description := "d", githubLink := "g",
         images := ["A", "B"] }] }

/-- A document whose only project has a legacy numeric id. -/
def egNumProjDoc : Portfolio :=
  { egBase with projects :=
      [{ id := .num 5, title := "t", description := "d", githubLink := "g", images := ["A"] }] }

/-- A document whose only gallery photo has a legacy numeric id. -/
def egNumGalleryDoc : Portfolio :=
  { egBase with gallery := [{ id := .num 7, url := some "U", caption := "c" }] }

/-- A document whose only certificate has a legacy numeric id. -/
def egNumCertDoc : Portfolio :=
  { egBase with certificates :=
      [{ id := .num 7, title := "t", issuer := "i", pdfUrl := some "P" }] }

/-- A document with one education entry carrying the numeric-looking id "1"
(stored at position 0, so an id match and a positional reading disagree)
and one legacy id-less entry. -/
def egEduDoc : Portfolio :=
  { egBase with education :=
      [{ id := some (.str "1"), title := "t1", institution := "i1", years := "y1",
         imageUrl := none },
       { id := none, title := "t2", institution := "i2", years := "y2", imageUrl := none }] }

/-- A document with a three-slide carousel. -/
def egCarouselDoc : Portfolio :=
  { egBase with carousel := [egSlide, egSlide, egSlide] }

/-- A sample body for the carousel route. -/
def egCarouselBody : CarouselBody :=
  { title := "nt", description := "nd", link := "nl", buttonText := "nb" }

/-- A sample body for the about-text route. -/
def egTextBody : TextBody :=
  { aboutSummary := "ns", aboutFull := "nf", aboutSkills := "sk1\n \nsk2" }

/-- A sample body for the footer route. -/
def egFooterBody : FooterBody :=
  { name := "n", line1 := "l1", line2 := "l2", githubLink := "gh",
    emailLink := "em", phoneLink := "ph", linkedinLink := "li" }

/-- The shape every route exhibits when its `save()` call fails after the
in-memory mutation: the held reference keeps the already-applied change
(it agrees with what the successful run would hold in memory), the store is
untouched, the reload step is never executed, and the request is aborted
with the given error response. -/
def persistFailureShape (failed succeeded : HandlerResult) (st : SysState)
    (resp : Response) : Prop :=
  failed.state.mem = succeeded.state.mem ∧
  failed.state.store = st.store ∧
  Action.reload ∉ failed.trace ∧
  failed.response = resp

/-! ### Basic facts about the scanning helpers -/

theorem toList_mk (l : List Char) : (String.mk l).toList = l := rfl

theorem isPrefixOf_append_self (l t : List Char) : l.isPrefixOf (l ++ t) = true := by
  induction l with
  | nil => simp [List.isPrefixOf]
  | cons c cs ih => simp [List.isPrefixOf, ih]

theorem indexOfSubstr_eq_some (pat : List Char) (l : List Char) (i : Nat)
    (hpre : pat.isPrefixOf (l.drop i) = true)
    (hmin : ∀ j, j < i → pat.isPrefixOf (l.drop j) = false) :
    indexOfSubstr pat l = some i := by
  induction l generalizing i with
  | nil =>
    have hnil : (([] : List Char).drop i) = [] := by simp
    rw [hnil] at hpre
    cases i with
    | zero =>
      cases pat with
      | nil => simp [indexOfSubstr]
      | cons c cs => simp [List.isPrefixOf] at hpre
    | succ n =>
      have h0 := hmin 0 (Nat.succ_pos n)
      simp only [List.drop_zero] at h0
      rw [hpre] at h0
      exact absurd h0 (by simp)
  | cons a l' ih =>
    cases i with
    | zero =>
      rw [List.drop_zero] at hpre
      simp [indexOfSubstr, hpre]
    | succ n =>
      have h0 := hmin 0 (Nat.succ_pos n)
      rw [List.drop_zero] at h0
      have hrec := ih n (by simpa using hpre)
        (fun j hj => by simpa using hmin (j + 1) (Nat.succ_lt_succ hj))
      simp [indexOfSubstr, h0, hrec]

theorem lastIndexOfDot_eq_none (ext : List Char) (h : ∀ c ∈ ext, c ≠ '.') :
    lastIndexOfDot ext = none := by
  induction ext with
  | nil => rfl
  | cons c cs ih =>
    have hc : c ≠ '.' := h c (by simp)
    have hcs := ih (fun d hd => h d (by simp [hd]))
    simp [lastIndexOfDot, hcs, hc]

theorem lastIndexOfDot_append_dot (name ext : List Char) (h : ∀ c ∈ ext, c ≠ '.') :
    lastIndexOfDot (name ++ '.' :: ext) = some name.length := by
  induction name with
  | nil => simp [lastIndexOfDot, lastIndexOfDot_eq_none ext h]
  | cons c cs ih => simp [lastIndexOfDot, ih]

theorem takeToLastDot_append_dot (name ext : List Char) (h : ∀ c ∈ ext, c ≠ '.') :
    takeToLastDot (name ++ '.' :: ext) = name := by
  rw [takeToLastDot, lastIndexOfDot_append_dot name ext h]
  exact List.take_left name ('.' :: ext)

theorem takeWhile_append_all {p : Char → Bool} (ds : List Char) (x : Char) (rest : List Char)
    (hds : ∀ c ∈ ds, p c = true) (hx : p x = false) :
    (ds ++ x :: rest).takeWhile p = ds := by
  induction ds with
  | nil => simp [List.takeWhile_cons, hx]
  | cons c cs ih =>
    have hc := hds c (by simp)
    simp [List.takeWhile_cons, hc, ih (fun d hd => hds d (by simp [hd]))]

theorem dropWhile_append_all {p : Char → Bool} (ds : List Char) (x : Char) (rest : List Char)
    (hds : ∀ c ∈ ds, p c = true) (hx : p x = false) :
    (ds ++ x :: rest).dropWhile p = x :: rest := by
  induction ds with
  | nil => simp [List.dropWhile_cons, hx]
  | cons c cs ih =>
    have hc := hds c (by simp)
    simp [List.dropWhile_cons, hc, ih (fun d hd => hds d (by simp [hd]))]

theorem skipVersionSeg_version (ds rest : List Char) (hne : ds ≠ [])
    (hdig : ∀ c ∈ ds, Char.isDigit c = true) :
    skipVersionSeg ('v' :: (ds ++ '/' :: rest)) = rest := by
  have ht := takeWhile_append_all ds '/' rest hdig (by decide)
  have hd := dropWhile_append_all ds '/' rest hdig (by decide)
  have hcond : versionCond ('v' :: (ds ++ '/' :: rest)) := by
    refine ⟨rfl, ?_, ?_⟩
    · simpa [ht] using hne
    · simp [hd]
  simp [skipVersionSeg, hcond, hd]

theorem skipVersionSeg_id (l : List Char) (h : ¬ versionCond l) :
    skipVersionSeg l = l := by
  simp [skipVersionSeg, h]

theorem extractPublicIdCore_version
    (pre ds name ext : List Char)
    (hds : ds ≠ []) (hdig : ∀ c ∈ ds, Char.isDigit c = true)
    (hext : ∀ c ∈ ext, c ≠ '.')
    (hcloud : (indexOfSubstr cloudinaryMarker
      (pre ++ uploadMarker ++ ('v' :: (ds ++ '/' :: (name ++ '.' :: ext))))).isSome = true)
    (hfirst : ∀ j, j < pre.length → uploadMarker.isPrefixOf
      ((pre ++ uploadMarker ++ ('v' :: (ds ++ '/' :: (name ++ '.' :: ext)))).drop j) = false) :
    extractPublicIdCore (pre ++ uploadMarker ++ ('v' :: (ds ++ '/' :: (name ++ '.' :: ext))))
      = some name := by
  have hidx : indexOfSubstr uploadMarker
      (pre ++ uploadMarker ++ ('v' :: (ds ++ '/' :: (name ++ '.' :: ext)))) = some pre.length := by
    apply indexOfSubstr_eq_some
    · rw [List.append_assoc, List.drop_left]
      exact isPrefixOf_append_self uploadMarker _
    · exact hfirst
  have hdrop : (pre ++ uploadMarker ++ ('v' :: (ds ++ '/' :: (name ++ '.' :: ext)))).drop
      (pre.length + uploadMarker.length) = 'v' :: (ds ++ '/' :: (name ++ '.' :: ext)) := by
    rw [← List.length_append pre uploadMarker]
    exact List.drop_left (pre ++ uploadMarker) _
  have hskip := skipVersionSeg_version ds (name ++ '.' :: ext) hds hdig
  have htake := takeToLastDot_append_dot name ext hext
  rw [extractPublicIdCore, if_neg (by simp only [hcloud]; simp), hidx]
  simp only [hdrop, hskip]
  rw [if_neg (by simp), htake]

theorem extractPublicIdCore_plain
    (pre name ext : List Char)
    (hver : ¬ versionCond (name ++ '.' :: ext))
    (hext : ∀ c ∈ ext, c ≠ '.')
    (hcloud : (indexOfSubstr cloudinaryMarker
      (pre ++ uploadMarker ++ (name ++ '.' :: ext))).isSome = true)
    (hfirst : ∀ j, j < pre.length → uploadMarker.isPrefixOf
      ((pre ++ uploadMarker ++ (name ++ '.' :: ext)).drop j) = false) :
    extractPublicIdCore (pre ++ uploadMarker ++ (name ++ '.' :: ext)) = some name := by
  have hidx : indexOfSubstr uploadMarker
      (pre ++ uploadMarker ++ (name ++ '.' :: ext)) = some pre.length := by
    apply indexOfSubstr_eq_some
    · rw [List.append_assoc, List.drop_left]
      exact isPrefixOf_append_self uploadMarker _
    · exact hfirst
  have hdrop : (pre ++ uploadMarker ++ (name ++ '.' :: ext)).drop
      (pre.length + uploadMarker.length) = name ++ '.' :: ext := by
    rw [← List.length_append pre uploadMarker]
    exact List.drop_left (pre ++ uploadMarker) _
  have hskip := skipVersionSeg_id (name ++ '.' :: ext) hver
  have htake := takeToLastDot_append_dot name ext hext
  rw [extractPublicIdCore, if_neg (by simp only [hcloud]; simp), hidx]
  simp only [hdrop, hskip]
  rw [if_neg (by simp), htake]

theorem extractPublicId_mk (l : List Char) (h : l ≠ []) :
    extractPublicId (some (String.mk l)) = (extractPublicIdCore l).map String.mk := by
  simp [extractPublicId, toList_mk, h]

theorem extractPublicId_not_cloudinary (s : String)
    (h : (indexOfSubstr cloudinaryMarker s.toList).isSome = false) :
    extractPublicId (some s) = none := by
  simp only [extractPublicId]
  by_cases he : s.toList = []
  · rw [if_pos he]
  · rw [if_neg he, extractPublicIdCore, if_pos h]
    rfl

/-! ### Claim C2 -/

/-- C2: the asset-delete operation derives the store identifier by taking
what follows the `/upload/` marker — optionally skipping a `v<digits>/`
version segment — and stripping the file extension; when the URL is absent,
not recognized as belonging to the asset store, or yields no usable
identifier, no destroy call is issued against the asset store, the
operation is a no-op rather than an error, and a surrounding document
mutation (gallery-photo deletion) still succeeds. -/
theorem C2_public_id_derivation_and_noop :
    (extractPublicId none = none ∧ destroyCalls (extractPublicId none) = []) ∧
    (∀ s : String, (indexOfSubstr cloudinaryMarker s.toList).isSome = false →
      extractPublicId (some s) = none ∧ destroyCalls (extractPublicId (some s)) = []) ∧
    (∀ u : Option String, extractPublicId u = some "" →
      destroyCalls (extractPublicId u) = []) ∧
    (∀ pre ds name ext : List Char, ds ≠ [] → (∀ c ∈ ds, Char.isDigit c = true) →
      (∀ c ∈ ext, c ≠ '.') →
      (indexOfSubstr cloudinaryMarker
        (pre ++ uploadMarker ++ ('v' :: (ds ++ '/' :: (name ++ '.' :: ext))))).isSome = true →
      (∀ j, j < pre.length → uploadMarker.isPrefixOf
        ((pre ++ uploadMarker ++ ('v' :: (ds ++ '/' :: (name ++ '.' :: ext)))).drop j) = false) →
      extractPublicId (some (String.mk
        (pre ++ uploadMarker ++ ('v' :: (ds ++ '/' :: (name ++ '.' :: ext))))))
        = some (String.mk name)) ∧
    (∀ pre name ext : List Char, ¬ versionCond (name ++ '.' :: ext) →
      (∀ c ∈ ext, c ≠ '.') →
      (indexOfSubstr cloudinaryMarker
        (pre ++ uploadMarker ++ (name ++ '.' :: ext))).isSome = true →
      (∀ j, j < pre.length → uploadMarker.isPrefixOf
        ((pre ++ uploadMarker ++ (name ++ '.' :: ext)).drop j) = false) →
      extractPublicId (some (String.mk (pre ++ uploadMarker ++ (name ++ '.' :: ext))))
        = some (String.mk name)) ∧
    (∀ (st : SysState) (photoId : String) (i : Nat) (photo : GalleryPhoto),
      findIndexJs (fun g => looseEq photoId g.id) st.mem.gallery = some i →
      st.mem.gallery[i]? = some photo →
      extractPublicId photo.url = none →
      (deleteGalleryPhoto true photoId st).state.mem.gallery = st.mem.gallery.eraseIdx i ∧
      (deleteGalleryPhoto true photoId st).response = Response.redirect "/admin#gallery" ∧
      ∀ pid, Action.cloudDestroy pid ∉ (deleteGalleryPhoto true photoId st).trace) := by
  refine ⟨⟨rfl, rfl⟩, ?_, ?_, ?_, ?_, ?_⟩
  · intro s h
    have h1 := extractPublicId_not_cloudinary s h
    exact ⟨h1, by rw [h1]; rfl⟩
  · intro u h
    rw [h]
    rfl
  · intro pre ds name ext h1 h2 h3 h4 h5
    rw [extractPublicId_mk _ (by simp [uploadMarker])]
    rw [extractPublicIdCore_version pre ds name ext h1 h2 h3 h4 h5]
    rfl
  · intro pre name ext h1 h2 h3 h4
    rw [extractPublicId_mk _ (by simp [uploadMarker])]
    rw [extractPublicIdCore_plain pre name ext h1 h2 h3 h4]
    rfl
  · intro st photoId i photo hidx hget hnone
    refine ⟨?_, ?_, ?_⟩ <;>
      simp [deleteGalleryPhoto, hidx, hget, hnone, deleteAssetActions, destroyCalls]

/-- Witness for C2: every hypothesis of the claim theorem discharged at
concrete inputs. -/
theorem C2_witness :
    (extractPublicId (some "https://example.com/upload/v1/a.png") = none ∧
      destroyCalls (extractPublicId (some "https://example.com/upload/v1/a.png")) = []) ∧
    destroyCalls (extractPublicId
      (some "https://res.cloudinary.com/demo/image/upload/noext")) = [] ∧
    extractPublicId (some (String.mk ("https://res.cloudinary.com/demo/image".toList ++
      uploadMarker ++ ('v' :: (['1'] ++ '/' :: ("portfolio/Gallery/pic".toList ++
        '.' :: "png".toList)))))) = some (String.mk "portfolio/Gallery/pic".toList) ∧
    extractPublicId (some (String.mk ("https://res.cloudinary.com/demo/raw".toList ++
      uploadMarker ++ ("docs/cv".toList ++ '.' :: "pdf".toList))))
      = some (String.mk "docs/cv".toList) ∧
    ((deleteGalleryPhoto true "g1" (egSt egGalleryDoc)).state.mem.gallery
        = (egSt egGalleryDoc).mem.gallery.eraseIdx 0 ∧
      (deleteGalleryPhoto true "g1" (egSt egGalleryDoc)).response
        = Response.redirect "/admin#gallery" ∧
      ∀ pid, Action.cloudDestroy pid ∉ (deleteGalleryPhoto true "g1" (egSt egGalleryDoc)).trace) := by
  refine ⟨?_, ?_, ?_, ?_, ?_⟩
  · exact (C2_public_id_derivation_and_noop.2.1
      "https://example.com/upload/v1/a.png" (by decide))
  · exact (C2_public_id_derivation_and_noop.2.2.1
      (some "https://res.cloudinary.com/demo/image/upload/noext") (by decide))
  · exact (C2_public_id_derivation_and_noop.2.2.2.1
      "https://res.cloudinary.com/demo/image".toList ['1'] "portfolio/Gallery/pic".toList
      "png".toList (by decide) (by decide) (by decide) (by decide) (by decide))
  · exact (C2_public_id_derivation_and_noop.2.2.2.2.1
      "https://res.cloudinary.com/demo/raw".toList "docs/cv".toList "pdf".toList
      (by decide) (by decide) (by decide) (by decide))
  · exact (C2_public_id_derivation_and_noop.2.2.2.2.2
      (egSt egGalleryDoc) "g1" 0 { id := .str "g1", url := some "U", caption := "c" }
      (by decide) (by decide) (by decide))

/-! ### Claim C1 -/

/-- C1 counterexample: `update-text` (one of the routes the claim covers)
modifies the cached document and persists it, yet its trace contains no
reload of the held reference from the store — the third write-through step
is not performed, refuting the claim as stated. -/
theorem C1_counterexample :
    (updateText true egTextBody (egSt egBase)).state.mem ≠ (egSt egBase).mem ∧
    (updateText true egTextBody (egSt egBase)).response = Response.redirect "/admin#general" ∧
    Action.reload ∉ (updateText true egTextBody (egSt egBase)).trace := by
  refine ⟨by decide, by decide, by decide⟩

/-- C1 amended: among the cited routes, only `delete-gallery-photo` performs
all three write-through steps in order (apply, persist, reload);
`update-text` and `update-carousel` apply the change and persist but never
reload the held reference (their store and memory still agree by value
after a successful save). -/
theorem C1_amended :
    (∀ (st : SysState) (photoId : String) (i : Nat) (photo : GalleryPhoto),
      findIndexJs (fun g => looseEq photoId g.id) st.mem.gallery = some i →
      st.mem.gallery[i]? = some photo →
      deleteGalleryPhoto true photoId st =
        { state := { mem := { st.mem with gallery := st.mem.gallery.eraseIdx i },
                     store := { st.mem with gallery := st.mem.gallery.eraseIdx i } },
          trace := deleteAssetActions (extractPublicId photo.url) ++
            [Action.applyChange, Action.persist, Action.reload],
          response := Response.redirect "/admin#gallery" }) ∧
    (∀ (body : TextBody) (st : SysState),
      (updateText true body st).trace = [Action.applyChange, Action.persist] ∧
      Action.reload ∉ (updateText true body st).trace ∧
      (updateText true body st).state.store = (updateText true body st).state.mem) ∧
    (∀ (st : SysState) (idxParam : String) (iv : Int) (upload : UploadOutcome)
        (body : CarouselBody),
      upload ≠ .failed → jsParseInt idxParam = some iv → 0 ≤ iv →
      iv < (st.mem.carousel.length : Int) →
      Action.applyChange ∈ (updateCarousel true idxParam upload body st).trace ∧
      Action.persist ∈ (updateCarousel true idxParam upload body st).trace ∧
      Action.reload ∉ (updateCarousel true idxParam upload body st).trace) := by
  refine ⟨?_, ?_, ?_⟩
  · intro st photoId i photo hidx hget
    simp [deleteGalleryPhoto, hidx, hget]
  · intro body st
    refine ⟨rfl, by simp [updateText], rfl⟩
  · intro st idxParam iv upload body hup hp h0 hlt
    cases upload with
    | failed => exact absurd rfl hup
    | noFile =>
      simp [updateCarousel, hp, if_pos (And.intro h0 hlt), deleteAssetActions]
    | file p =>
      simp [updateCarousel, hp, if_pos (And.intro h0 hlt), deleteAssetActions]

/-- Witness for C1 amended at concrete inputs. -/
theorem C1_amended_witness :
    deleteGalleryPhoto true "g1" (egSt egGalleryDoc) =
      { state := { mem := { (egSt egGalleryDoc).mem with
                     gallery := (egSt egGalleryDoc).mem.gallery.eraseIdx 0 },
                   store := { (egSt egGalleryDoc).mem with
                     gallery := (egSt egGalleryDoc).mem.gallery.eraseIdx 0 } },
        trace := deleteAssetActions (extractPublicId (some "U")) ++
          [Action.applyChange, Action.persist, Action.reload],
        response := Response.redirect "/admin#gallery" } ∧
    (updateText true egTextBody (egSt egBase)).trace =
      [Action.applyChange, Action.persist] ∧
    (Action.applyChange ∈ (updateCarousel true "1" .noFile egCarouselBody
        (egSt egCarouselDoc)).trace ∧
      Action.persist ∈ (updateCarousel true "1" .noFile egCarouselBody
        (egSt egCarouselDoc)).trace ∧
      Action.reload ∉ (updateCarousel true "1" .noFile egCarouselBody
        (egSt egCarouselDoc)).trace) := by
  refine ⟨?_, ?_, ?_⟩
  · exact C1_amended.1 (egSt egGalleryDoc) "g1" 0
      { id := .str "g1", url := some "U", caption := "c" } (by decide) (by decide)
  · exact (C1_amended.2.1 egTextBody (egSt egBase)).1
  · exact C1_amended.2.2 (egSt egCarouselDoc) "1" 1 .noFile egCarouselBody
      (by decide) (by decide) (by decide) (by decide)

/-! ### Claim C6 -/

/-- C6: a carousel-update request whose position is out of range (including
an unparsable index) leaves the document and store completely unchanged,
makes no asset-store call, and still answers with the success redirect;
carousel slides are addressed purely by the caller-supplied position. -/
theorem C6_carousel_out_of_range :
    ∀ (st : SysState) (saveOk : Bool) (idxParam : String) (upload : UploadOutcome)
      (body : CarouselBody),
      upload ≠ .failed →
      (∀ iv, jsParseInt idxParam = some iv →
        ¬(0 ≤ iv ∧ iv < (st.mem.carousel.length : Int))) →
      updateCarousel saveOk idxParam upload body st =
        { state := st, trace := [], response := Response.redirect "/admin#carousel" } := by
  intro st saveOk idxParam upload body hup hrange
  cases upload with
  | failed => exact absurd rfl hup
  | noFile =>
    cases hp : jsParseInt idxParam with
    | none => simp [updateCarousel, hp]
    | some iv => simp [updateCarousel, hp, hrange iv hp]
  | file p =>
    cases hp : jsParseInt idxParam with
    | none => simp [updateCarousel, hp]
    | some iv => simp [updateCarousel, hp, hrange iv hp]

/-- Witness for C6: position 5 on a 3-slide carousel. -/
theorem C6_witness :
    updateCarousel true "5" .noFile egCarouselBody (egSt egCarouselDoc) =
      { state := egSt egCarouselDoc, trace := [],
        response := Response.redirect "/admin#carousel" } := by
  apply C6_carousel_out_of_range
  · decide
  · intro iv h
    rw [show jsParseInt "5" = some 5 from by decide] at h
    cases h
    decide

/-! ### Claim C7 -/

/-- C7: on every embedded upload-accepting admin route, a rejected upload
redirects with an inline error message in the query string and leaves the
document unmodified: no in-memory mutation, no persist, no asset-store
action of any kind. -/
theorem C7_upload_rejected :
    ∀ (st : SysState) (saveOk : Bool),
      (∀ idxParam body, updateCarousel saveOk idxParam .failed body st =
        { state := st, trace := [],
          response := .redirect
            (uploadErrorRedirect "Carousel upload failed. Check server log.") }) ∧
      (∀ newId caption, uploadGallery saveOk newId .failed caption st =
        { state := st, trace := [],
          response := .redirect
            (uploadErrorRedirect "Gallery photo upload failed. Check server log.") }) ∧
      (∀ photoId, updateGalleryPhoto saveOk photoId .failed st =
        { state := st, trace := [],
          response := .redirect
            (uploadErrorRedirect "Gallery photo replacement failed. Check server log.") }) ∧
      (∀ projectId, uploadProjectImage saveOk projectId .failed st =
        { state := st, trace := [],
          response := .redirect
            (uploadErrorRedirect "Project image upload failed. Check server log.") }) := by
  intro st saveOk
  exact ⟨fun _ _ => rfl, fun _ _ => rfl, fun _ => rfl, fun _ => rfl⟩

/-! ### Lemmas about `modifyFirst`, `modifyAt` and the lookup helpers -/

theorem find?_modifyFirst {α : Type} (pred : α → Bool) (f : α → α) (l : List α) (x : α)
    (hfind : l.find? pred = some x) (hpres : pred (f x) = true) :
    (modifyFirst pred f l).find? pred = some (f x) := by
  induction l with
  | nil => simp [List.find?] at hfind
  | cons a l ih =>
    by_cases ha : pred a = true
    · rw [List.find?_cons_of_pos _ ha] at hfind
      cases hfind
      simp [modifyFirst, ha, List.find?_cons_of_pos _ hpres]
    · rw [List.find?_cons_of_neg _ (by simpa using ha)] at hfind
      have hmod : modifyFirst pred f (a :: l) = a :: modifyFirst pred f l := by
        simp [modifyFirst, ha]
      rw [hmod, List.find?_cons_of_neg _ (by simpa using ha)]
      exact ih hfind

theorem getElem?_modifyAt {α : Type} (l : List α) (i : Nat) (f : α → α) :
    (modifyAt l i f)[i]? = (l[i]?).map f := by
  induction l generalizing i with
  | nil => simp [modifyAt]
  | cons a l ih =>
    cases i with
    | zero => simp [modifyAt]
    | succ n => simpa [modifyAt] using ih n

theorem find?_none_of_num_ids (param : String) (l : List Project)
    (h : ∀ p ∈ l, ∃ n : Int, p.id = .num n) :
    l.find? (fun p => strictEq param p.id) = none := by
  induction l with
  | nil => rfl
  | cons a l ih =>
    obtain ⟨n, hn⟩ := h a (by simp)
    rw [List.find?_cons_of_neg _ (by simp [hn, strictEq])]
    exact ih (fun p hp => h p (by simp [hp]))

theorem findIndexJs_none_of_num_ids (param : String) (l : List Project)
    (h : ∀ p ∈ l, ∃ n : Int, p.id = .num n) :
    findIndexJs (fun p => strictEq param p.id) l = none := by
  induction l with
  | nil => rfl
  | cons a l ih =>
    obtain ⟨n, hn⟩ := h a (by simp)
    have hrec := ih (fun p hp => h p (by simp [hp]))
    have hhead : strictEq param a.id = false := by simp [hn, strictEq]
    simp [findIndexJs, hhead, hrec]

/-! ### Claim C3 -/

/-- C3 counterexample: on a document where two gallery photos share the
asset url "U", replacing the image of photo g1 with a new upload "N"
completes normally (the new url is installed and the old one deleted from
the store), yet the old url "U" is still reachable from the document —
photo g2 still stores it — refuting the claim's requirement that the old
url be unreachable from any field afterwards. -/
theorem C3_counterexample :
    (updateGalleryPhoto true "g1" (.file "N") (egSt egDupDoc)).response =
      Response.redirect "/admin#gallery" ∧
    ((updateGalleryPhoto true "g1" (.file "N")
      (egSt egDupDoc)).state.mem.gallery.map GalleryPhoto.url).contains (some "N") = true ∧
    ((updateGalleryPhoto true "g1" (.file "N")
      (egSt egDupDoc)).state.mem.gallery.map GalleryPhoto.url).contains (some "U") = true := by
  refine ⟨by decide, by decide, by decide⟩

/-- C3 amended: when a new file is supplied and the target record exists,
the asset-lifecycle delete of the OLD url is invoked before the new url is
installed (it precedes the in-memory mutation in the trace), and afterwards
the targeted record itself holds the new url — the old url is gone from
that record whenever it differs from the new one, though it may remain in
other records that independently store the same url. -/
theorem C3_amended :
    (∀ (st : SysState) (photoId newUrl : String) (photo : GalleryPhoto),
      st.mem.gallery.find? (fun g => looseEq photoId g.id) = some photo →
      (updateGalleryPhoto true photoId (.file newUrl) st).trace =
        deleteAssetActions (extractPublicId photo.url) ++
          [Action.applyChange, Action.persist, Action.reload] ∧
      (updateGalleryPhoto true photoId (.file newUrl) st).state.mem.gallery.find?
          (fun g => looseEq photoId g.id) = some { photo with url := some newUrl }) ∧
    (∀ (st : SysState) (idxParam newUrl : String) (iv : Int) (body : CarouselBody)
        (slide : Slide),
      jsParseInt idxParam = some iv → 0 ≤ iv → iv < (st.mem.carousel.length : Int) →
      st.mem.carousel[iv.toNat]? = some slide →
      (updateCarousel true idxParam (.file newUrl) body st).trace =
        deleteAssetActions (extractPublicId slide.url) ++
          [Action.applyChange, Action.persist] ∧
      (updateCarousel true idxParam (.file newUrl) body st).state.mem.carousel[iv.toNat]? =
        some { slide with title := body.title, description := body.description,
                          link := body.link, buttonText := body.buttonText,
                          url := some newUrl }) := by
  constructor
  · intro st photoId newUrl photo hfind
    constructor
    · simp [updateGalleryPhoto, hfind]
    · have hpres : (fun g => looseEq photoId g.id) { photo with url := some newUrl } = true := by
        have := List.find?_some hfind
        simpa using this
      have h1 := find?_modifyFirst (fun g => looseEq photoId g.id)
        (fun g => { g with url := some newUrl }) st.mem.gallery photo hfind hpres
      simp [updateGalleryPhoto, hfind, h1]
  · intro st idxParam newUrl iv body slide hp h0 hlt hslide
    constructor
    · simp [updateCarousel, hp, if_pos (And.intro h0 hlt), hslide]
    · simp [updateCarousel, hp, if_pos (And.intro h0 hlt), getElem?_modifyAt, hslide]

/-- Witness for C3 amended at concrete inputs. -/
theorem C3_amended_witness :
    ((updateGalleryPhoto true "g1" (.file "N") (egSt egGalleryDoc)).trace =
      deleteAssetActions (extractPublicId (some "U")) ++
        [Action.applyChange, Action.persist, Action.reload] ∧
    (updateGalleryPhoto true "g1" (.file "N") (egSt egGalleryDoc)).state.mem.gallery.find?
        (fun g => looseEq "g1" g.id) =
      some { id := JsVal.str "g1", url := some "N", caption := "c" }) ∧
    ((updateCarousel true "0" (.file "N") egCarouselBody (egSt egCarouselDoc)).trace =
      deleteAssetActions (extractPublicId egSlide.url) ++
        [Action.applyChange, Action.persist] ∧
    (updateCarousel true "0" (.file "N") egCarouselBody
        (egSt egCarouselDoc)).state.mem.carousel[(0 : Int).toNat]? =
      some { egSlide with title := egCarouselBody.title,
                          description := egCarouselBody.description,
                          link := egCarouselBody.link,
                          buttonText := egCarouselBody.buttonText, url := some "N" }) := by
  constructor
  · exact C3_amended.1 (egSt egGalleryDoc) "g1" "N"
      { id := .str "g1", url := some "U", caption := "c" } (by decide)
  · exact C3_amended.2 (egSt egCarouselDoc) "0" "N" 0 egCarouselBody egSlide
      (by decide) (by decide) (by decide) (by decide)

/-! ### Claim C4 -/

/-- C4: education deletion resolves its identifier in this order: a lenient
(`==`) match on some record's `id` field wins and deletes exactly that
record, never falling back to position (even for numeric-looking
identifiers); failing that, an identifier that parses as a non-negative
integer below the collection's length deletes the record at that position;
otherwise the collection is left unchanged. -/
theorem C4_education_lookup :
    (∀ (st : SysState) (ident : String) (i : Nat) (e : Education),
      findIndexJs (fun x => looseEqOpt ident x.id) st.mem.education = some i →
      st.mem.education[i]? = some e →
      (deleteEducation true ident st).state.mem.education =
        st.mem.education.eraseIdx i ∧
      (deleteEducation true ident st).trace =
        deleteAssetActions (extractPublicId e.imageUrl) ++
          [Action.applyChange, Action.persist, Action.reload]) ∧
    (∀ (st : SysState) (ident : String) (n : Int) (e : Education),
      findIndexJs (fun x => looseEqOpt ident x.id) st.mem.education = none →
      jsParseInt ident = some n → 0 ≤ n → n < (st.mem.education.length : Int) →
      st.mem.education[n.toNat]? = some e →
      (deleteEducation true ident st).state.mem.education =
        st.mem.education.eraseIdx n.toNat ∧
      (deleteEducation true ident st).trace =
        deleteAssetActions (extractPublicId e.imageUrl) ++
          [Action.applyChange, Action.persist, Action.reload]) ∧
    (∀ (st : SysState) (ident : String),
      findIndexJs (fun x => looseEqOpt ident x.id) st.mem.education = none →
      (∀ n, jsParseInt ident = some n →
        ¬(0 ≤ n ∧ n < (st.mem.education.length : Int))) →
      deleteEducation true ident st =
        { state := st, trace := [], response := Response.redirect "/admin#general" }) := by
  refine ⟨?_, ?_, ?_⟩
  · intro st ident i e hidx hget
    constructor <;> simp [deleteEducation, hidx, hget]
  · intro st ident n e hidx hp h0 hlt hget
    constructor <;>
      simp [deleteEducation, hidx, hp, if_pos (And.intro h0 hlt), hget]
  · intro st ident hidx hrange
    cases hp : jsParseInt ident with
    | none => simp [deleteEducation, hidx, hp]
    | some n => simp [deleteEducation, hidx, hp, hrange n hp]

/-- Witness for C4: on `egEduDoc` the identifier "1" matches the id of the
record at position 0 and deletes it (had the positional fallback been used,
position 1 would have been deleted instead); the identifier "0" matches no
id and falls back to position 0; the identifier "9" matches nothing and is
out of bounds, leaving the collection unchanged. -/
theorem C4_witness :
    ((deleteEducation true "1" (egSt egEduDoc)).state.mem.education =
        egEduDoc.education.eraseIdx 0 ∧
      (deleteEducation true "1" (egSt egEduDoc)).trace =
        deleteAssetActions (extractPublicId none) ++
          [Action.applyChange, Action.persist, Action.reload]) ∧
    ((deleteEducation true "0" (egSt egEduDoc)).state.mem.education =
        egEduDoc.education.eraseIdx 0 ∧
      (deleteEducation true "0" (egSt egEduDoc)).trace =
        deleteAssetActions (extractPublicId none) ++
          [Action.applyChange, Action.persist, Action.reload]) ∧
    deleteEducation true "9" (egSt egEduDoc) =
      { state := egSt egEduDoc, trace := [],
        response := Response.redirect "/admin#general" } := by
  refine ⟨?_, ?_, ?_⟩
  · exact C4_education_lookup.1 (egSt egEduDoc) "1" 0
      { id := some (.str "1"), title := "t1", institution := "i1", years := "y1",
        imageUrl := none } (by decide) (by decide)
  · exact C4_education_lookup.2.1 (egSt egEduDoc) "0" 0
      { id := some (.str "1"), title := "t1", institution := "i1", years := "y1",
        imageUrl := none } (by decide) (by decide) (by decide) (by decide) (by decide)
  · apply C4_education_lookup.2.2 (egSt egEduDoc) "9" (by decide)
    intro n h
    rw [show jsParseInt "9" = some 9 from by decide] at h
    cases h
    decide

/-! ### Claim C5 -/

/-- C5: on `projects = [{id:"proj1", images:["A","B"]}]`, deleting project
image "A" leaves `images = ["B"]` and performs exactly one asset-lifecycle
delete, with the identifier derived from "A"; repeating the request leaves
the document, the store and the trace empty of any change or delete call —
the operation is idempotent once the url is absent. -/
theorem C5_project_image_idempotent :
    ((deleteProjectImage true "proj1" "A" (egSt egProjDoc)).state.mem.projects.map
      Project.images) = [["B"]] ∧
    (deleteProjectImage true "proj1" "A" (egSt egProjDoc)).state.store =
      (deleteProjectImage true "proj1" "A" (egSt egProjDoc)).state.mem ∧
    (deleteProjectImage true "proj1" "A" (egSt egProjDoc)).trace =
      [Action.assetDelete (extractPublicId (some "A")), Action.applyChange,
        Action.persist, Action.reload] ∧
    deleteProjectImage true "proj1" "A"
        (deleteProjectImage true "proj1" "A" (egSt egProjDoc)).state =
      { state := (deleteProjectImage true "proj1" "A" (egSt egProjDoc)).state,
        trace := [], response := Response.redirect "/admin#projects" } := by
  refine ⟨by decide, by decide, by decide, by decide⟩

/-! ### Claim C8 -/

theorem reload_not_mem_deleteAssetActions (pid : Option String) :
    Action.reload ∉ deleteAssetActions pid := by
  cases pid with
  | none => decide
  | some s =>
    by_cases h : s = "" <;> simp [deleteAssetActions, destroyCalls, h]

/-- C8 counterexample: `update-footer` is a mutating request whose persist
fails after the in-memory change was applied, yet the request is NOT
aborted with a server-error signal — its catch block answers the ordinary
success redirect `/admin#general` — refuting the claim's universal abort
requirement.  The other parts of the claim still hold here: the reload
step is not executed, the held reference keeps the applied change, and the
store is untouched. -/
theorem C8_counterexample :
    (updateFooter false egFooterBody (egSt egBase)).response =
      Response.redirect "/admin#general" ∧
    (updateFooter false egFooterBody (egSt egBase)).response ≠
      Response.unhandledError ∧
    (∀ s : String,
      (updateFooter false egFooterBody (egSt egBase)).response ≠ Response.serverError s) ∧
    (updateFooter false egFooterBody (egSt egBase)).state.mem ≠ egBase ∧
    (updateFooter false egFooterBody (egSt egBase)).state.store = egBase ∧
    Action.reload ∉ (updateFooter false egFooterBody (egSt egBase)).trace := by
  refine ⟨by decide, by decide, ?_, by decide, by decide, by decide⟩
  intro s
  simp [updateFooter]

/-- C8 amended: on every embedded mutating route, when the code path has
applied the in-memory change and the persist then fails, the reload step is
never executed and the held reference keeps the applied change while the
store is untouched; every route except `update-footer` aborts with an error
response — the two routes whose source wraps the save in a try/catch
(gallery upload and gallery photo replacement) surface a caught generic
500, the remaining ones propagate an unhandled error — while
`update-footer` catches the failure and answers the ordinary success
redirect instead of any server-error signal. -/
theorem C8_persist_failure :
    (∀ (st : SysState) (newId caption p : String),
      persistFailureShape (uploadGallery false newId (.file p) caption st)
        (uploadGallery true newId (.file p) caption st) st
        (.serverError "Database save failed after successful file upload.")) ∧
    (∀ (st : SysState) (photoId p : String) (photo : GalleryPhoto),
      st.mem.gallery.find? (fun g => looseEq photoId g.id) = some photo →
      persistFailureShape (updateGalleryPhoto false photoId (.file p) st)
        (updateGalleryPhoto true photoId (.file p) st) st
        (.serverError "Database save failed after successful file upload.")) ∧
    (∀ (st : SysState) (idxParam : String) (iv : Int) (upload : UploadOutcome)
        (body : CarouselBody),
      upload ≠ .failed → jsParseInt idxParam = some iv → 0 ≤ iv →
      iv < (st.mem.carousel.length : Int) →
      persistFailureShape (updateCarousel false idxParam upload body st)
        (updateCarousel true idxParam upload body st) st .unhandledError) ∧
    (∀ (st : SysState) (body : TextBody),
      persistFailureShape (updateText false body st) (updateText true body st) st
        .unhandledError) ∧
    (∀ (st : SysState) (photoId caption : String) (photo : GalleryPhoto),
      st.mem.gallery.find? (fun g => looseEq photoId g.id) = some photo →
      persistFailureShape (updateGalleryCaption false photoId caption st)
        (updateGalleryCaption true photoId caption st) st .unhandledError) ∧
    (∀ (st : SysState) (photoId : String) (i : Nat) (photo : GalleryPhoto),
      findIndexJs (fun g => looseEq photoId g.id) st.mem.gallery = some i →
      st.mem.gallery[i]? = some photo →
      persistFailureShape (deleteGalleryPhoto false photoId st)
        (deleteGalleryPhoto true photoId st) st .unhandledError) ∧
    (∀ (st : SysState) (certId : String) (i : Nat) (cert : Certificate),
      findIndexJs (fun c => looseEq certId c.id) st.mem.certificates = some i →
      st.mem.certificates[i]? = some cert →
      persistFailureShape (deleteCertificate false certId st)
        (deleteCertificate true certId st) st .unhandledError) ∧
    (∀ (st : SysState) (ident : String) (i : Nat) (e : Education),
      findIndexJs (fun x => looseEqOpt ident x.id) st.mem.education = some i →
      st.mem.education[i]? = some e →
      persistFailureShape (deleteEducation false ident st)
        (deleteEducation true ident st) st .unhandledError) ∧
    (∀ (st : SysState) (projectId imageUrl : String) (project : Project),
      st.mem.projects.find? (fun p => strictEq projectId p.id) = some project →
      imageUrl ≠ "" → project.images.contains imageUrl = true →
      persistFailureShape (deleteProjectImage false projectId imageUrl st)
        (deleteProjectImage true projectId imageUrl st) st .unhandledError) ∧
    (∀ (st : SysState) (projectId : String) (i : Nat) (project : Project),
      findIndexJs (fun p => strictEq projectId p.id) st.mem.projects = some i →
      st.mem.projects[i]? = some project →
      persistFailureShape (deleteProject false projectId st)
        (deleteProject true projectId st) st .unhandledError) ∧
    (∀ (st : SysState) (projectId t d g : String) (project : Project),
      st.mem.projects.find? (fun p => strictEq projectId p.id) = some project →
      persistFailureShape (updateProject false projectId t d g st)
        (updateProject true projectId t d g st) st .unhandledError) ∧
    (∀ (st : SysState) (projectId p : String) (project : Project),
      st.mem.projects.find? (fun pr => strictEq projectId pr.id) = some project →
      persistFailureShape (uploadProjectImage false projectId (.file p) st)
        (uploadProjectImage true projectId (.file p) st) st .unhandledError) ∧
    (∀ (st : SysState) (body : FooterBody),
      persistFailureShape (updateFooter false body st) (updateFooter true body st) st
        (.redirect "/admin#general")) := by
  refine ⟨?_, ?_, ?_, ?_, ?_, ?_, ?_, ?_, ?_, ?_, ?_, ?_, ?_⟩
  · intro st newId caption p
    refine ⟨rfl, rfl, ?_, rfl⟩
    simp [uploadGallery]
  · intro st photoId p photo hfind
    refine ⟨?_, ?_, ?_, ?_⟩ <;>
      simp [persistFailureShape, updateGalleryPhoto, hfind, List.mem_append,
        reload_not_mem_deleteAssetActions]
  · intro st idxParam iv upload body hup hp h0 hlt
    cases upload with
    | failed => exact absurd rfl hup
    | noFile =>
      refine ⟨?_, ?_, ?_, ?_⟩ <;>
        simp [persistFailureShape, updateCarousel, hp, if_pos (And.intro h0 hlt)]
    | file q =>
      refine ⟨?_, ?_, ?_, ?_⟩ <;>
        simp [persistFailureShape, updateCarousel, hp, if_pos (And.intro h0 hlt),
          List.mem_append, reload_not_mem_deleteAssetActions]
  · intro st body
    refine ⟨rfl, rfl, ?_, rfl⟩
    simp [updateText]
  · intro st photoId caption photo hfind
    refine ⟨?_, ?_, ?_, ?_⟩ <;> simp [persistFailureShape, updateGalleryCaption, hfind]
  · intro st photoId i photo hidx hget
    refine ⟨?_, ?_, ?_, ?_⟩ <;>
      simp [persistFailureShape, deleteGalleryPhoto, hidx, hget, List.mem_append,
        reload_not_mem_deleteAssetActions]
  · intro st certId i cert hidx hget
    refine ⟨?_, ?_, ?_, ?_⟩ <;>
      simp [persistFailureShape, deleteCertificate, hidx, hget, List.mem_append,
        reload_not_mem_deleteAssetActions]
  · intro st ident i e hidx hget
    refine ⟨?_, ?_, ?_, ?_⟩ <;>
      simp [persistFailureShape, deleteEducation, hidx, hget, List.mem_append,
        reload_not_mem_deleteAssetActions]
  · intro st projectId imageUrl project hfind himg hcont
    have hmem : imageUrl ∈ project.images := by simpa using hcont
    refine ⟨?_, ?_, ?_, ?_⟩ <;>
      simp [persistFailureShape, deleteProjectImage, hfind, himg, hmem,
        List.mem_append, reload_not_mem_deleteAssetActions]
  · intro st projectId i project hidx hget
    have hrel : ∀ pid, Action.reload ∉ deleteAssetActions pid :=
      reload_not_mem_deleteAssetActions
    refine ⟨?_, ?_, ?_, ?_⟩ <;>
      simp [persistFailureShape, deleteProject, hidx, hget, List.mem_append,
        List.mem_flatten, hrel]
  · intro st projectId t d g project hfind
    refine ⟨?_, ?_, ?_, ?_⟩ <;> simp [persistFailureShape, updateProject, hfind]
  · intro st projectId p project hfind
    refine ⟨?_, ?_, ?_, ?_⟩ <;> simp [persistFailureShape, uploadProjectImage, hfind]
  · intro st body
    refine ⟨rfl, rfl, ?_, rfl⟩
    simp [updateFooter]

/-- Witness for C8: each hypothesis-bearing conjunct applied at a concrete
document and request. -/
theorem C8_witness :
    persistFailureShape (updateGalleryPhoto false "g1" (.file "N") (egSt egGalleryDoc))
      (updateGalleryPhoto true "g1" (.file "N") (egSt egGalleryDoc)) (egSt egGalleryDoc)
      (.serverError "Database save failed after successful file upload.") ∧
    persistFailureShape (updateCarousel false "0" .noFile egCarouselBody (egSt egCarouselDoc))
      (updateCarousel true "0" .noFile egCarouselBody (egSt egCarouselDoc))
      (egSt egCarouselDoc) .unhandledError ∧
    persistFailureShape (updateGalleryCaption false "g1" "x" (egSt egGalleryDoc))
      (updateGalleryCaption true "g1" "x" (egSt egGalleryDoc)) (egSt egGalleryDoc)
      .unhandledError ∧
    persistFailureShape (deleteGalleryPhoto false "g1" (egSt egGalleryDoc))
      (deleteGalleryPhoto true "g1" (egSt egGalleryDoc)) (egSt egGalleryDoc)
      .unhandledError ∧
    persistFailureShape (deleteCertificate false "7" (egSt egNumCertDoc))
      (deleteCertificate true "7" (egSt egNumCertDoc)) (egSt egNumCertDoc)
      .unhandledError ∧
    persistFailureShape (deleteEducation false "1" (egSt egEduDoc))
      (deleteEducation true "1" (egSt egEduDoc)) (egSt egEduDoc) .unhandledError ∧
    persistFailureShape (deleteProjectImage false "proj1" "A" (egSt egProjDoc))
      (deleteProjectImage true "proj1" "A" (egSt egProjDoc)) (egSt egProjDoc)
      .unhandledError ∧
    persistFailureShape (deleteProject false "proj1" (egSt egProjDoc))
      (deleteProject true "proj1" (egSt egProjDoc)) (egSt egProjDoc) .unhandledError ∧
    persistFailureShape (updateProject false "proj1" "t2" "d2" "g2" (egSt egProjDoc))
      (updateProject true "proj1" "t2" "d2" "g2" (egSt egProjDoc)) (egSt egProjDoc)
      .unhandledError ∧
    persistFailureShape (uploadProjectImage false "proj1" (.file "N") (egSt egProjDoc))
      (uploadProjectImage true "proj1" (.file "N") (egSt egProjDoc)) (egSt egProjDoc)
      .unhandledError := by
  have h := C8_persist_failure
  refine ⟨?_, ?_, ?_, ?_, ?_, ?_, ?_, ?_, ?_, ?_⟩
  · exact h.2.1 (egSt egGalleryDoc) "g1" "N"
      { id := .str "g1", url := some "U", caption := "c" } (by decide)
  · exact h.2.2.1 (egSt egCarouselDoc) "0" 0 .noFile egCarouselBody
      (by decide) (by decide) (by decide) (by decide)
  · exact h.2.2.2.2.1 (egSt egGalleryDoc) "g1" "x"
      { id := .str "g1", url := some "U", caption := "c" } (by decide)
  · exact h.2.2.2.2.2.1 (egSt egGalleryDoc) "g1" 0
      { id := .str "g1", url := some "U", caption := "c" } (by decide) (by decide)
  · exact h.2.2.2.2.2.2.1 (egSt egNumCertDoc) "7" 0
      { id := .num 7, title := "t", issuer := "i", pdfUrl := some "P" }
      (by decide) (by decide)
  · exact h.2.2.2.2.2.2.2.1 (egSt egEduDoc) "1" 0
      { id := some (.str "1"), title := "t1", institution := "i1", years := "y1",
        imageUrl := none } (by decide) (by decide)
  · exact h.2.2.2.2.2.2.2.2.1 (egSt egProjDoc) "proj1" "A"
      { id := .str "proj1", title := "t", description := "d", githubLink := "g",
        images := ["A", "B"] } (by decide) (by decide) (by decide)
  · exact h.2.2.2.2.2.2.2.2.2.1 (egSt egProjDoc) "proj1" 0
      { id := .str "proj1", title := "t", description := "d", githubLink := "g",
        images := ["A", "B"] } (by decide) (by decide)
  · exact h.2.2.2.2.2.2.2.2.2.2.1 (egSt egProjDoc) "proj1" "t2" "d2" "g2"
      { id := .str "proj1", title := "t", description := "d", githubLink := "g",
        images := ["A", "B"] } (by decide)
  · exact h.2.2.2.2.2.2.2.2.2.2.2.1 (egSt egProjDoc) "proj1" "N"
      { id := .str "proj1", title := "t", description := "d", githubLink := "g",
        images := ["A", "B"] } (by decide)

/-! ### Claim C9 -/

/-- C9: on a document whose gallery is `[{id:"g1", url:"U1", caption:"old"}]`,
updating the caption of g1 to "new" changes only that record's caption —
its id and url and every other field of the document are untouched — and
the trace holds no asset-store action of any kind. -/
theorem C9_caption_update_frame :
    ∀ (doc : Portfolio),
      doc.gallery = [{ id := .str "g1", url := some "U1", caption := "old" }] →
      updateGalleryCaption true "g1" "new" (egSt doc) =
        { state :=
            { mem := { doc with gallery :=
                ([{ id := .str "g1", url := some "U1", caption := "new" }]) },
              store := { doc with gallery :=
                ([{ id := .str "g1", url := some "U1", caption := "new" }]) } },
          trace := [Action.applyChange, Action.persist],
          response := Response.redirect "/admin#gallery" } := by
  intro doc h
  have hfind : doc.gallery.find? (fun g => looseEq "g1" g.id) =
      some { id := .str "g1", url := some "U1", caption := "old" } := by
    rw [h]; decide
  have hmod : modifyFirst (fun g => looseEq "g1" g.id)
      (fun g => { g with caption := "new" }) doc.gallery =
      [{ id := .str "g1", url := some "U1", caption := "new" }] := by
    rw [h]; decide
  simp [updateGalleryCaption, egSt, hfind, hmod]

/-- Witness for C9 at the concrete document. -/
theorem C9_witness :
    updateGalleryCaption true "g1" "new" (egSt egCaptionDoc) =
      { state :=
          { mem := { egCaptionDoc with gallery :=
              ([{ id := .str "g1", url := some "U1", caption := "new" }]) },
            store := { egCaptionDoc with gallery :=
              ([{ id := .str "g1", url := some "U1", caption := "new" }]) } },
        trace := [Action.applyChange, Action.persist],
        response := Response.redirect "/admin#gallery" } :=
  C9_caption_update_frame egCaptionDoc (by decide)

/-! ### Claim C10 -/

/-- C10: the four project routes look records up with strict string
equality — no lenient string-vs-number comparison, no positional fallback —
so on a legacy document whose projects all carry numeric ids, any string
parameter matches nothing and the document is unchanged, while the lenient
gallery and certificate lookups do match a numeric id against its decimal
string. -/
theorem C10_project_strict_lookup :
    (∀ (st : SysState) (param : String),
      (∀ p ∈ st.mem.projects, ∃ n : Int, p.id = .num n) →
      (∀ t d g, updateProject true param t d g st =
        { state := st, trace := [], response := Response.redirect "/admin#projects" }) ∧
      (∀ imageUrl, deleteProjectImage true param imageUrl st =
        { state := st, trace := [], response := Response.redirect "/admin#projects" }) ∧
      (deleteProject true param st =
        { state := st, trace := [], response := Response.redirect "/admin#projects" }) ∧
      (∀ p, uploadProjectImage true param (.file p) st =
        { state := st, trace := [], response := Response.redirect "/admin#projects" })) ∧
    (∀ (st : SysState) (u : Option String) (c s : String) (n : Int),
      st.mem.gallery = [{ id := .num n, url := u, caption := c }] →
      jsToNumber s = some n →
      (deleteGalleryPhoto true s st).state.mem.gallery = []) ∧
    (∀ (st : SysState) (u : Option String) (t i s : String) (n : Int),
      st.mem.certificates = [{ id := .num n, title := t, issuer := i, pdfUrl := u }] →
      jsToNumber s = some n →
      (deleteCertificate true s st).state.mem.certificates = []) := by
  refine ⟨?_, ?_, ?_⟩
  · intro st param h
    have hf := find?_none_of_num_ids param st.mem.projects h
    have hi := findIndexJs_none_of_num_ids param st.mem.projects h
    refine ⟨fun t d g => ?_, fun imageUrl => ?_, ?_, fun p => ?_⟩
    · simp [updateProject, hf]
    · simp [deleteProjectImage, hf]
    · simp [deleteProject, hi]
    · simp [uploadProjectImage, hf]
  · intro st u c s n hg hjs
    have hloose : looseEq s (JsVal.num n) = true := by simp [looseEq, hjs]
    have hidx : findIndexJs (fun g => looseEq s g.id)
        st.mem.gallery = some 0 := by
      rw [hg]
      simp [findIndexJs, hloose]
    have hget : st.mem.gallery[0]? = some { id := .num n, url := u, caption := c } := by
      rw [hg]; rfl
    simp only [deleteGalleryPhoto, hidx, hget]
    simp [hg]
  · intro st u t i s n hc hjs
    have hloose : looseEq s (JsVal.num n) = true := by simp [looseEq, hjs]
    have hidx : findIndexJs (fun x => looseEq s x.id)
        st.mem.certificates = some 0 := by
      rw [hc]
      simp [findIndexJs, hloose]
    have hget : st.mem.certificates[0]? =
        some { id := .num n, title := t, issuer := i, pdfUrl := u } := by
      rw [hc]; rfl
    simp only [deleteCertificate, hidx, hget]
    simp [hc]

/-- Witness for C10: the numeric-id document `egNumProjDoc` with the string
parameter "5" (its project's numeric id printed in decimal) is unchanged by
all four project routes, while the gallery and certificate routes delete
their numeric-id records when given "7". -/
theorem C10_witness :
    updateProject true "5" "t2" "d2" "g2" (egSt egNumProjDoc) =
      { state := egSt egNumProjDoc, trace := [],
        response := Response.redirect "/admin#projects" } ∧
    deleteProjectImage true "5" "A" (egSt egNumProjDoc) =
      { state := egSt egNumProjDoc, trace := [],
        response := Response.redirect "/admin#projects" } ∧
    deleteProject true "5" (egSt egNumProjDoc) =
      { state := egSt egNumProjDoc, trace := [],
        response := Response.redirect "/admin#projects" } ∧
    uploadProjectImage true "5" (.file "N") (egSt egNumProjDoc) =
      { state := egSt egNumProjDoc, trace := [],
        response := Response.redirect "/admin#projects" } ∧
    (deleteGalleryPhoto true "7" (egSt egNumGalleryDoc)).state.mem.gallery = [] ∧
    (deleteCertificate true "7" (egSt egNumCertDoc)).state.mem.certificates = [] := by
  have hnum : ∀ p ∈ (egSt egNumProjDoc).mem.projects, ∃ n : Int, p.id = .num n := by
    intro p hp
    have hp1 : p = { id := .num 5, title := "t", description := "d", githubLink := "g",
                     images := ["A"] } := by
      simpa [egSt, egNumProjDoc, egBase] using hp
    exact ⟨5, by rw [hp1]⟩
  have h1 := C10_project_strict_lookup.1 (egSt egNumProjDoc) "5" hnum
  refine ⟨h1.1 "t2" "d2" "g2", h1.2.1 "A", h1.2.2.1, h1.2.2.2 "N", ?_, ?_⟩
  · exact C10_project_strict_lookup.2.1 (egSt egNumGalleryDoc) (some "U") "c" "7" 7
      (by decide) (by decide)
  · exact C10_project_strict_lookup.2.2 (egSt egNumCertDoc) (some "P") "t" "i" "7" 7
      (by decide) (by decide)

end PortfolioApp
